import Mathlib

/-!
Shallow embedding of the `time` command-line utility (src/src/main.rs).

Modelling conventions:
  - Rust `f64` values are modelled as exact rationals (`ℚ`); the floating
    point operations appearing in the source (division, subtraction,
    comparison) are modelled by the corresponding exact operations, and
    the decimal rendering of `format!` with a fixed precision is modelled
    by rounding to the nearest multiple of `10 ^ -prec`.
  - Rust `u64` values are modelled as `ℕ`; the only places where the
    64-bit range is observable in the claims is `str::parse::<u64>`,
    which is modelled with an explicit `< 2 ^ 64` bound, and the
    `FILETIME` reassembly, which reduces its 32-bit halves `% 2 ^ 32`.
  - Fallible operations (`Result<_, Box<dyn Error>>`) are modelled with
    `Except String`.
  - Environment interactions (reading `/proc/<pid>/stat`, the Windows
    process APIs, spawning and waiting on the child) are modelled by
    passing the outcome of each interaction as an explicit argument.
-/

/-- Mirrors `struct ResourceUsage` (main.rs lines 51-57): user CPU time and
system CPU time in seconds, peak memory in KB. -/
structure ResourceUsage where
  user_time : ℚ
  system_time : ℚ
  max_memory : ℕ
deriving DecidableEq, Repr

/-- Mirrors `ResourceUsage::default()`: the all-zero record produced by
`#[derive(Default)]`. -/
def ResourceUsage.default : ResourceUsage :=
  { user_time := 0, system_time := 0, max_memory := 0 }

/-- Digit characters of `n`, most significant first, zero-padded to exactly
`prec` digits (the low `prec` decimal digits of `n`). Models the zero-padded
fractional part of Rust `format!` with a fixed precision. -/
def natDigitsPadded : ℕ → ℕ → List Char
  | 0, _ => []
  | p + 1, n => natDigitsPadded p (n / 10) ++ [Nat.digitChar (n % 10)]

/-- Models Rust `format!` with fixed precision (`{:.3}` / `{:.1}`) on an
`f64`, over the exact-rational idealization: round to the nearest multiple
of `10 ^ -prec` and print with exactly `prec` digits after the point. -/
def fmtFixed (prec : ℕ) (q : ℚ) : String :=
  let scale : ℕ := 10 ^ prec
  let n : ℤ := round (q * (scale : ℚ))
  let sign : String := if n < 0 then "-" else ""
  sign ++ toString (n.natAbs / scale) ++ "." ++ String.mk (natDigitsPadded prec (n.natAbs % scale))

/-- Mirrors `format_time` (main.rs lines 170-178): seconds as `{:.3}s` when
under 60, otherwise `{}m{:.3}s` with `minutes = (seconds as u64) / 60` and
the remaining seconds obtained by subtraction. -/
def format_time (seconds : ℚ) : String :=
  if seconds < 60 then
    fmtFixed 3 seconds ++ "s"
  else
    let minutes : ℕ := ⌊seconds⌋₊ / 60
    let remaining_seconds : ℚ := seconds - (minutes : ℚ) * 60
    toString minutes ++ "m" ++ fmtFixed 3 remaining_seconds ++ "s"

/-- Written from the words of the spec (section 8): for `d < 60` render the
seconds with three decimals and an `s` suffix; for `d ≥ 60` render
`<minutes>m<seconds>.<3 digits>s` where `minutes = ⌊d / 60⌋` and the
remaining seconds are computed by subtraction, not modulo. -/
def format_time_spec (d : ℚ) : String :=
  if d < 60 then
    fmtFixed 3 d ++ "s"
  else
    toString (⌊d / 60⌋₊) ++ "m" ++ fmtFixed 3 (d - (⌊d / 60⌋₊ : ℚ) * 60) ++ "s"

/-- Mirrors `format_memory` (main.rs lines 181-191). -/
def format_memory (kb : ℕ) : String :=
  if kb = 0 then "N/A"
  else if kb < 1024 then toString kb ++ "KB"
  else if kb < 1024 * 1024 then fmtFixed 1 ((kb : ℚ) / 1024) ++ "MB"
  else fmtFixed 1 ((kb : ℚ) / (1024 * 1024)) ++ "GB"

/-- Written from the words of the spec: `m = 0 → "N/A"`;
`0 < m < 1024 →` integer KB; `1024 ≤ m < 1048576 →` value over 1024 with one
decimal and `MB`; `m ≥ 1048576 →` value over 1048576 with one decimal and
`GB`. -/
def format_memory_spec (m : ℕ) : String :=
  if m = 0 then "N/A"
  else if 0 < m ∧ m < 1024 then toString m ++ "KB"
  else if 1024 ≤ m ∧ m < 1048576 then fmtFixed 1 ((m : ℚ) / 1024) ++ "MB"
  else fmtFixed 1 ((m : ℚ) / 1048576) ++ "GB"

/-- Splitting accumulator: walks the character list, collecting the current
field in reverse in `acc`; whitespace ends a field, empties are dropped.
Models Rust `str::split_whitespace` (restricted to the ASCII whitespace
that `/proc` status records contain). -/
def splitWSAux : List Char → List Char → List (List Char)
  | [], acc => if acc.isEmpty then [] else [acc.reverse]
  | c :: cs, acc =>
    if c.isWhitespace then
      if acc.isEmpty then splitWSAux cs [] else acc.reverse :: splitWSAux cs []
    else
      splitWSAux cs (c :: acc)

/-- Models `stat_content.split_whitespace().collect::<Vec<&str>>()`. -/
def splitWhitespace (s : String) : List String :=
  (splitWSAux s.data []).map String.mk

/-- Digit-list parser: `acc` is the value of the digits consumed so far;
fails on the first non-digit character. -/
def parseDigits : List Char → ℕ → Option ℕ
  | [], acc => some acc
  | c :: cs, acc =>
    if c.isDigit then parseDigits cs (acc * 10 + (c.toNat - 48)) else none

/-- Models Rust `str::parse::<u64>()`: an optional leading plus sign, one
or more ASCII digits, and the value must fit in 64 bits. -/
def parseU64 (s : String) : Option ℕ :=
  let cs : List Char := if s.data.head? = some '+' then s.data.tail else s.data
  if cs.isEmpty then none
  else
    match parseDigits cs 0 with
    | some n => if n < 2 ^ 64 then some n else none
    | none => none

/-- Mirrors the POSIX `get_child_process_times` (main.rs lines 143-168).
The outcome of `fs::read_to_string("/proc/<pid>/stat")` is passed as
`stat_content` (`none` models a read error, e.g. a nonexistent process id),
and the `sysconf(_SC_CLK_TCK) as f64` value as `clock_ticks`. Field
indices 13, 14 and 22 (0-based) are `utime`, `stime` and `vsize`; each
`parse().unwrap_or(0)` is `(parseU64 _).getD 0`; `vsize / 1024` is 64-bit
integer division. Every return path of the source is `Ok`. -/
def get_child_process_times (stat_content : Option String) (clock_ticks : ℚ) :
    Except String ResourceUsage :=
  match stat_content with
  | some content =>
      let fields : List String := splitWhitespace content
      if 24 ≤ fields.length then
        let utime : ℕ := (parseU64 (fields.getD 13 "")).getD 0
        let stime : ℕ := (parseU64 (fields.getD 14 "")).getD 0
        let vsize : ℕ := (parseU64 (fields.getD 22 "")).getD 0
        Except.ok { user_time := (utime : ℚ) / clock_ticks,
                    system_time := (stime : ℚ) / clock_ticks,
                    max_memory := vsize / 1024 }
      else
        Except.ok ResourceUsage.default
  | none => Except.ok ResourceUsage.default

/-- Mirrors the winapi `FILETIME` struct: two 32-bit halves of a 64-bit
100-nanosecond tick count. -/
structure FILETIME where
  dwLowDateTime : ℕ
  dwHighDateTime : ℕ
deriving DecidableEq, Repr

/-- Mirrors `filetime_to_seconds` (main.rs lines 61-65):
`((high as u64) << 32) | (low as u64)`, then divide by `10_000_000.0`.
The halves are reduced `% 2 ^ 32` as 32-bit fields. -/
def filetime_to_seconds (ft : FILETIME) : ℚ :=
  let total : ℕ := ((ft.dwHighDateTime % 2 ^ 32) <<< 32) ||| (ft.dwLowDateTime % 2 ^ 32)
  (total : ℚ) / 10000000

/-- Outcomes of the Windows API calls made by the Windows probe, passed in
as the environment: whether `OpenProcess(PROCESS_QUERY_INFORMATION)` and
the `PROCESS_QUERY_LIMITED_INFORMATION` retry return a non-null handle;
the four FILETIMEs (creation, exit, kernel, user) when `GetProcessTimes`
returns nonzero (`none` models a zero i.e. failed call); and the
`PeakWorkingSetSize` byte count when `GetProcessMemoryInfo` returns
nonzero. -/
structure WinEnv where
  open_query : Bool
  open_limited : Bool
  timing : Option (FILETIME × FILETIME × FILETIME × FILETIME)
  memory : Option ℕ

/-- Mirrors the Windows `get_child_process_times` (main.rs lines 68-139):
if both `OpenProcess` attempts fail, return the default; otherwise query
times and memory independently; a failed memory query leaves
`max_memory_kb = 0`; a failed timing query still returns the recovered
memory with zero times; `CloseHandle` has no observable effect in the
model. Every return path of the source is `Ok`. -/
def get_child_process_times_windows (env : WinEnv) : Except String ResourceUsage :=
  if env.open_query || env.open_limited then
    let max_memory_kb : ℕ :=
      match env.memory with
      | some peak => peak / 1024
      | none => 0
    match env.timing with
    | none =>
        Except.ok { user_time := 0, system_time := 0, max_memory := max_memory_kb }
    | some (_creation, _exit, kernel, user) =>
        Except.ok { user_time := filetime_to_seconds user,
                    system_time := filetime_to_seconds kernel,
                    max_memory := max_memory_kb }
  else
    Except.ok ResourceUsage.default

/-- Mirrors `std::process::ExitStatus` as observed by the source:
`.code()` is `some n` for a normal exit and `none` (Unix
signal-termination) otherwise. -/
inductive ExitStatus where
  | code (n : ℤ)
  | signal
deriving DecidableEq, Repr

/-- Outcome of a successful spawn-and-wait of the child: the observed exit
status, the wall-clock seconds measured from `wall_start` (captured
immediately before the spawn) to immediately after `wait()` returned, and
the interrupt flag as loaded once after the wait. -/
structure SpawnedRun where
  exit_status : ExitStatus
  wall_elapsed : ℚ
  interrupted : Bool

/-- Mirrors `execute_and_measure` (main.rs lines 193-223) together with
the platform-optimized body (lines 250-273, identical on both platforms):
a spawn failure becomes the fatal formatted error; in portable mode the
resource usage is `ResourceUsage.default`; otherwise the probe result
(`unwrap_or_default`, though the probe never errs) is attached. The spawn
outcome and the probe inputs are passed as the environment. -/
def execute_and_measure (program : String) (portable : Bool)
    (spawn : Except String SpawnedRun) (stat_content : Option String) (clock_ticks : ℚ) :
    Except String (ExitStatus × ℚ × ResourceUsage × Bool) :=
  match spawn with
  | Except.error e => Except.error ("Failed to execute " ++ program ++ ": " ++ e)
  | Except.ok run =>
      if portable then
        Except.ok (run.exit_status, run.wall_elapsed, ResourceUsage.default, run.interrupted)
      else
        let resource_usage : ResourceUsage :=
          match get_child_process_times stat_content clock_ticks with
          | Except.ok r => r
          | Except.error _ => ResourceUsage.default
        Except.ok (run.exit_status, run.wall_elapsed, resource_usage, run.interrupted)

/-- Mirrors the verbose `exit_str` computation (main.rs lines 315-319):
`"interrupted"` when the interrupt flag was set, otherwise the numeric
code, or `"signal"` when the child was terminated by a signal. -/
def exit_str (was_interrupted : Bool) (es : ExitStatus) : String :=
  if was_interrupted then "interrupted"
  else
    match es with
    | ExitStatus.code n => toString n
    | ExitStatus.signal => "signal"

/-- Mirrors the final exit-code selection of `main` (main.rs lines
357-365): 130 when interrupted, else the code of the child, else 1. -/
def process_exit_code (was_interrupted : Bool) (es : ExitStatus) : ℤ :=
  if was_interrupted then 130
  else
    match es with
    | ExitStatus.code n => n
    | ExitStatus.signal => 1

/-- Mirrors the CPU-usage computation of `main` in verbose mode (main.rs
lines 320-324). -/
def cpu_usage (wall_seconds user_time system_time : ℚ) : ℚ :=
  if wall_seconds > 0 then ((user_time + system_time) / wall_seconds) * 100
  else 0

/-- Mirrors the non-verbose `timing_info` string of `main` (main.rs lines
340-348): `format!("\nreal\t{}\nuser\t{}\nsys\t{}\n", ...)`. -/
def timing_info_standard (wall_seconds : ℚ) (resource_user resource_sys : ℚ) : String :=
  "\nreal\t" ++ format_time wall_seconds ++
  "\nuser\t" ++ format_time resource_user ++
  "\nsys\t" ++ format_time resource_sys ++ "\n"

/-- Written from the words of the spec: a blank leading line, then three
lines `real`, `user`, `sys` in that order, each the label, a tab, and the
formatted duration, each line terminated with a newline. -/
def report_standard_spec (wall_seconds : ℚ) (resource_user resource_sys : ℚ) : String :=
  "\n" ++
  ("real" ++ "\t" ++ format_time wall_seconds ++ "\n") ++
  ("user" ++ "\t" ++ format_time resource_user ++ "\n") ++
  ("sys" ++ "\t" ++ format_time resource_sys ++ "\n")

/-- Observable output of a run of `main`: the list of (file, contents)
writes performed, and everything written to standard error. -/
structure OutputEffect where
  file_writes : List (String × String)
  stderr_out : String
deriving DecidableEq, Repr

/-- Mirrors the output behaviour of `main` (main.rs lines 302-307 and
350-355): in verbose mode the platform banner (and the portable-mode note)
is printed to standard error before the run; then the report either goes
to the named file — a failed `fs::write` propagating as the fatal error —
or is printed to standard error. `write_ok` is the outcome of
`fs::write`. -/
def main_output (verbose portable : Bool) (platform : String)
    (output_file : Option String) (write_ok : Bool) (timing_info : String) :
    Except String OutputEffect :=
  let banner : String :=
    if verbose then
      ("Running on: " ++ platform ++ "\n") ++
        (if portable then "Using portable timing mode\n" else "")
    else ""
  match output_file with
  | some f =>
      if write_ok then Except.ok { file_writes := [(f, timing_info)], stderr_out := banner }
      else Except.error "output write failed"
  | none => Except.ok { file_writes := [], stderr_out := banner ++ timing_info }

/-! ### Helper lemmas -/

theorem str_data_eq : ∀ {s t : String}, s.data = t.data → s = t := by
  intro s t h
  cases s
  cases t
  cases h
  rfl

theorem str_data_append : ∀ (s t : String), (s ++ t).data = s.data ++ t.data := by
  intro s t
  cases s
  cases t
  rfl

theorem natDigitsPadded_length : ∀ (p n : ℕ), (natDigitsPadded p n).length = p := by
  intro p
  induction p with
  | zero => intro n; rfl
  | succ q ih =>
      intro n
      simp [natDigitsPadded, ih]

/-! ### Claim theorems -/

/-- Claim C1: the POSIX Resource Probe never raises an error to its caller
for any child identifier — for every input, including a nonexistent process
id (an unreadable status record) or a record with fewer fields than
expected, it returns `Except.ok`, and in those degraded cases the all-zero
default `ResourceUsage`. -/
theorem posix_probe_never_fails (stat_content : Option String) (clock_ticks : ℚ) :
    (∃ r, get_child_process_times stat_content clock_ticks = Except.ok r) ∧
    (stat_content = none →
      get_child_process_times stat_content clock_ticks = Except.ok ResourceUsage.default) ∧
    (∀ s, stat_content = some s → (splitWhitespace s).length < 24 →
      get_child_process_times stat_content clock_ticks = Except.ok ResourceUsage.default) := by
  refine ⟨?_, ?_, ?_⟩
  · cases stat_content with
    | none => exact ⟨ResourceUsage.default, rfl⟩
    | some content =>
        simp only [get_child_process_times]
        split
        · exact ⟨_, rfl⟩
        · exact ⟨_, rfl⟩
  · intro h
    subst h
    rfl
  · intro s hs hlen
    subst hs
    simp only [get_child_process_times, if_neg (by omega : ¬ 24 ≤ (splitWhitespace s).length)]

/-- Witness for C1: an unreadable status record yields the default. -/
theorem posix_probe_never_fails_witness :
    get_child_process_times none 100 = Except.ok ResourceUsage.default :=
  (posix_probe_never_fails none 100).2.1 rfl

/-- Claim C2: on a readable status record with at least the expected 24
whitespace-delimited fields, the probe returns the tick count at 1-indexed
position 14 divided by the clock-ticks-per-second constant as `user_time`,
position 15 likewise as `system_time`, and the virtual memory size at
position 23 divided by 1024 as `max_memory`. -/
theorem posix_probe_field_values (s : String) (clock_ticks : ℚ) (u st v : ℕ)
    (hlen : 24 ≤ (splitWhitespace s).length)
    (hu : parseU64 ((splitWhitespace s).getD (14 - 1) "") = some u)
    (hst : parseU64 ((splitWhitespace s).getD (15 - 1) "") = some st)
    (hv : parseU64 ((splitWhitespace s).getD (23 - 1) "") = some v) :
    get_child_process_times (some s) clock_ticks =
      Except.ok { user_time := (u : ℚ) / clock_ticks,
                  system_time := (st : ℚ) / clock_ticks,
                  max_memory := v / 1024 } := by
  have hu13 : parseU64 ((splitWhitespace s).getD 13 "") = some u := hu
  have hst14 : parseU64 ((splitWhitespace s).getD 14 "") = some st := hst
  have hv22 : parseU64 ((splitWhitespace s).getD 22 "") = some v := hv
  simp only [get_child_process_times, if_pos hlen, hu13, hst14, hv22, Option.getD_some]

/-- Witness for C2: a concrete 24-field status record with utime 50,
stime 30 and vsize 2048, at 100 clock ticks per second. -/
theorem posix_probe_field_values_witness :
    get_child_process_times
        (some "1 (x) S 0 0 0 0 0 0 0 0 0 0 50 30 0 0 0 0 0 0 0 2048 0") 100 =
      Except.ok { user_time := (50 : ℚ) / 100, system_time := (30 : ℚ) / 100,
                  max_memory := 2048 / 1024 } :=
  posix_probe_field_values _ 100 50 30 2048 (by decide) (by decide) (by decide) (by decide)

/-- Claim C3: when the run was interrupted the process exit code is 130 and
the verbose exit-status field reads "interrupted", regardless of the
child exit status; otherwise a child exiting with code `n` yields exit
code `n`, and a child terminated by a signal (no exit code) yields exit
code 1. -/
theorem exit_code_and_status_rules :
    (∀ es : ExitStatus, process_exit_code true es = 130 ∧ exit_str true es = "interrupted") ∧
    (∀ n : ℤ, process_exit_code false (ExitStatus.code n) = n) ∧
    process_exit_code false ExitStatus.signal = 1 :=
  ⟨fun _ => ⟨rfl, rfl⟩, fun _ => rfl, rfl⟩

/-- Claim C4: in the Windows Resource Probe, once a handle is open, the
timing query and the memory query are independent: timing success with
memory failure yields the measured user/system times with zero memory,
and timing failure with memory success yields zero times with the
recovered peak-working-set value (bytes over 1024). -/
theorem windows_probe_queries_independent (env : WinEnv)
    (hopen : env.open_query = true ∨ env.open_limited = true) :
    (∀ ct et kt ut, env.timing = some (ct, et, kt, ut) → env.memory = none →
      get_child_process_times_windows env =
        Except.ok { user_time := filetime_to_seconds ut,
                    system_time := filetime_to_seconds kt, max_memory := 0 }) ∧
    (∀ m, env.timing = none → env.memory = some m →
      get_child_process_times_windows env =
        Except.ok { user_time := 0, system_time := 0, max_memory := m / 1024 }) := by
  have hcond : (env.open_query || env.open_limited) = true := by
    rcases hopen with h | h <;> simp [h]
  constructor
  · intro ct et kt ut ht hm
    simp only [get_child_process_times_windows, hcond, if_true, ht, hm]
  · intro m ht hm
    simp only [get_child_process_times_windows, hcond, if_true, ht, hm]

/-- Witness for C4: failed timing query, successful memory query of 4096
bytes, over a handle opened at the primary access level. -/
theorem windows_probe_queries_independent_witness :
    get_child_process_times_windows
        { open_query := true, open_limited := false, timing := none, memory := some 4096 } =
      Except.ok { user_time := 0, system_time := 0, max_memory := 4096 / 1024 } :=
  (windows_probe_queries_independent _ (Or.inl rfl)).2 4096 rfl rfl

/-- Helper for C5: the fixed-precision renderer always produces a string
of the form `lead.frac` with exactly `prec` digits after the point. -/
theorem fmtFixed_shape (prec : ℕ) (q : ℚ) :
    ∃ lead frac : String, fmtFixed prec q = lead ++ "." ++ frac ∧ frac.length = prec :=
  ⟨(if round (q * ((10 ^ prec : ℕ) : ℚ)) < 0 then "-" else "") ++
      toString ((round (q * ((10 ^ prec : ℕ) : ℚ))).natAbs / 10 ^ prec),
    String.mk (natDigitsPadded prec ((round (q * ((10 ^ prec : ℕ) : ℚ))).natAbs % 10 ^ prec)),
    rfl, natDigitsPadded_length prec _⟩

/-- Claim C5: for every duration d ≥ 0, `format_time` renders `d < 60` as
the seconds with exactly 3 decimal digits and an `s` suffix, and `d ≥ 60`
as `<minutes>m<seconds>.<3 digits>s` with `minutes = ⌊d / 60⌋` and the
remaining seconds obtained by subtraction (the spec-side rendering is
`format_time_spec`); being a pure function of `d` it is deterministic. -/
theorem format_time_follows_spec (d : ℚ) (h : 0 ≤ d) :
    format_time d = format_time_spec d ∧
    ∃ lead frac : String, format_time d = lead ++ "." ++ frac ++ "s" ∧ frac.length = 3 := by
  have hmin : ⌊d / 60⌋₊ = ⌊d⌋₊ / 60 := Nat.floor_div_ofNat d 60
  constructor
  · unfold format_time format_time_spec
    by_cases hd : d < 60
    · rw [if_pos hd, if_pos hd]
    · rw [if_neg hd, if_neg hd, hmin]
  · by_cases hd : d < 60
    · have he : format_time d = fmtFixed 3 d ++ "s" := by
        unfold format_time
        rw [if_pos hd]
      obtain ⟨lead, frac, hf, hlen⟩ := fmtFixed_shape 3 d
      refine ⟨lead, frac, ?_, hlen⟩
      rw [he, hf]
    · have he : format_time d =
          toString (⌊d⌋₊ / 60) ++ "m" ++ fmtFixed 3 (d - ((⌊d⌋₊ / 60 : ℕ) : ℚ) * 60) ++ "s" := by
        unfold format_time
        rw [if_neg hd]
      obtain ⟨lead, frac, hf, hlen⟩ := fmtFixed_shape 3 (d - ((⌊d⌋₊ / 60 : ℕ) : ℚ) * 60)
      refine ⟨toString (⌊d⌋₊ / 60) ++ "m" ++ lead, frac, ?_, hlen⟩
      rw [he, hf]
      apply str_data_eq
      simp only [str_data_append, List.append_assoc]

/-- Witness for C5: the claim instantiated at d = 90 seconds. -/
theorem format_time_follows_spec_witness :
    format_time 90 = format_time_spec 90 ∧
    ∃ lead frac : String, format_time 90 = lead ++ "." ++ frac ++ "s" ∧ frac.length = 3 :=
  format_time_follows_spec 90 (by norm_num)

/-- Claim C6: `format_memory` returns "N/A" at zero, integer KB below
1024, MB with one decimal from 1024 up to 1048576, and GB with one
decimal from 1048576 on (the spec-side rendering is
`format_memory_spec`). -/
theorem format_memory_follows_spec (m : ℕ) :
    format_memory m = format_memory_spec m := by
  unfold format_memory format_memory_spec
  by_cases h0 : m = 0
  · rw [if_pos h0, if_pos h0]
  · rw [if_neg h0, if_neg h0]
    by_cases h1 : m < 1024
    · rw [if_pos h1, if_pos ⟨Nat.pos_of_ne_zero h0, h1⟩]
    · rw [if_neg h1, if_neg (by omega : ¬(0 < m ∧ m < 1024))]
      by_cases h2 : m < 1024 * 1024
      · rw [if_pos h2, if_pos (by omega : 1024 ≤ m ∧ m < 1048576)]
      · rw [if_neg h2, if_neg (by omega : ¬(1024 ≤ m ∧ m < 1048576))]
        norm_num

/-- Claim C7: for every successfully spawned command run in portable mode,
the reported `ResourceUsage` is the all-zero default while the returned
wall-clock figure is the one measured from immediately before the spawn
to immediately after the observed exit (`run.wall_elapsed`). -/
theorem portable_mode_zero_resources (program : String) (run : SpawnedRun)
    (stat_content : Option String) (clock_ticks : ℚ) :
    execute_and_measure program true (Except.ok run) stat_content clock_ticks =
      Except.ok (run.exit_status, run.wall_elapsed, ResourceUsage.default, run.interrupted) :=
  rfl

/-- Claim C8: the non-verbose report is exactly a blank leading line, then
the three lines `real`, `user`, `sys` in that order, each the label, a tab
and the formatted duration, terminated with a trailing newline. -/
theorem standard_report_shape (wall_seconds resource_user resource_sys : ℚ) :
    timing_info_standard wall_seconds resource_user resource_sys =
      report_standard_spec wall_seconds resource_user resource_sys := by
  apply str_data_eq
  simp only [timing_info_standard, report_standard_spec, str_data_append, List.append_assoc]
  rfl

/-- Counterexample to C9 as stated: in a verbose run with `-o report.txt`,
the platform banner is still written to standard error, so "nothing is
written to standard error" fails. -/
theorem output_file_stderr_counterexample :
    main_output true false "Linux" (some "report.txt") true "report" =
      Except.ok { file_writes := [("report.txt", "report")],
                  stderr_out := "Running on: Linux\n" } ∧
    "Running on: Linux\n" ≠ "" :=
  ⟨rfl, by decide⟩

/-- Claim C9 (amended): for every non-verbose run with `-o <file>` given,
the report text is written to the named file and nothing is written to
standard error; a failure to write the file propagates as a fatal
error. -/
theorem output_file_redirects_report (portable : Bool) (platform f report : String)
    (write_ok : Bool) :
    (write_ok = true →
      main_output false portable platform (some f) write_ok report =
        Except.ok { file_writes := [(f, report)], stderr_out := "" }) ∧
    (write_ok = false →
      ∃ e, main_output false portable platform (some f) write_ok report = Except.error e) := by
  constructor
  · intro h
    subst h
    rfl
  · intro h
    subst h
    exact ⟨_, rfl⟩

/-- Witness for C9 (amended): a successful non-verbose run writing the
report to `report.txt` with empty standard error. -/
theorem output_file_redirects_report_witness :
    main_output false false "Linux" (some "report.txt") true "report" =
      Except.ok { file_writes := [("report.txt", "report")], stderr_out := "" } :=
  (output_file_redirects_report false "Linux" "report.txt" "report" true).1 rfl

/-- Claim C10: the verbose CPU-usage percentage is
`(user + system) / wall * 100` only under the guard `wall > 0`; whenever
`wall ≤ 0` the reported percentage is exactly 0, so the division is never
performed with a non-positive divisor. -/
theorem cpu_usage_guarded (wall_seconds user_time system_time : ℚ) :
    (wall_seconds ≤ 0 → cpu_usage wall_seconds user_time system_time = 0) ∧
    (0 < wall_seconds →
      cpu_usage wall_seconds user_time system_time =
        ((user_time + system_time) / wall_seconds) * 100) := by
  constructor
  · intro h
    simp only [cpu_usage, if_neg (not_lt.mpr h)]
  · intro h
    simp only [cpu_usage, if_pos h]

/-- Witness for C10: zero wall time yields exactly 0; positive wall time
yields the ratio. -/
theorem cpu_usage_guarded_witness :
    cpu_usage 0 5 5 = 0 ∧ cpu_usage 2 1 1 = ((1 + 1) / 2) * 100 :=
  ⟨(cpu_usage_guarded 0 5 5).1 le_rfl, (cpu_usage_guarded 2 1 1).2 (by norm_num)⟩
